import Mathlib

/-!
Shallow embedding of the opentools issue-processor pipeline
(`src/main.py`, `src/interface.py`).

Conventions of the embedding:
* JSON values are modelled by the inductive `Json`; a parsed JSON object is
  an association list of string keys (Python dicts read from `json.load`).
* Python exceptions become `Except PipeErr`; the constructors of `PipeErr`
  mirror the exception classes raised (`KeyError`, `ValueError`,
  pydantic `ValidationError`, `AttributeError`, `TypeError`).
* The filesystem is an association list from paths to file contents.
* Machine-level details that no stated property depends on (byte-exact
  escaping inside `json.dump`, the precise message text of exceptions) are
  modelled up to those details, as noted at each definition.
-/

/-- A JSON value as produced by Python's `json.load`. -/
inductive Json where
  | null
  | bool (b : Bool)
  | num (n : Int)
  | str (s : String)
  | arr (elems : List Json)
  | obj (fields : List (String × Json))

/-- The Python exceptions the pipeline can raise, by class and the datum
each carries (offending key, message, offending field, attribute name). -/
inductive PipeErr where
  | keyError (key : String)
  | valueError (msg : String)
  | validationError (field : String)
  | attrError (attr : String)
  | typeError (msg : String)
deriving DecidableEq

deriving instance DecidableEq for Except

/-- Lookup of a key in a parsed JSON object (Python `d[k]` / `k in d`). -/
def jlookup : List (String × Json) → String → Option Json
  | [], _ => none
  | (k, v) :: rest, key => if k = key then some v else jlookup rest key

/-- Python truthiness of a JSON value (`if not x`). -/
def truthy : Json → Bool
  | Json.null => false
  | Json.bool b => b
  | Json.num n => n ≠ 0
  | Json.str s => !(s == "")
  | Json.arr l => !l.isEmpty
  | Json.obj l => !l.isEmpty

/-! ### Reference extractor (`main.py` lines 18–25 and 113–118) -/

/-- The characters Python's regex `\s` matches on ASCII input. -/
def isRegexSpace (c : Char) : Bool :=
  c = ' ' || c = '\t' || c = '\n' || c = '\r' || c = '\x0b' || c = '\x0c'

/-- A character admissible in the URL body class `[^\s)]`. -/
def isUrlBodyChar (c : Char) : Bool :=
  !(isRegexSpace c) && c ≠ ')'

/-- Greedy match of `[^\s)]*`: the maximal admissible run and the rest. -/
def takeUrlBody : List Char → List Char × List Char
  | [] => ([], [])
  | c :: cs =>
    if isUrlBodyChar c then
      let r := takeUrlBody cs
      (c :: r.1, r.2)
    else ([], c :: cs)

/-- Literal prefix match; `some rest` when the prefix is present. -/
def stripPrefixChars : List Char → List Char → Option (List Char)
  | [], cs => some cs
  | _ :: _, [] => none
  | p :: ps, c :: cs => if c = p then stripPrefixChars ps cs else none

/-- One attempt of the regex `https?://[^\s)]+` anchored at the head of the
input: the matched substring and the remaining input, or `none`. -/
def matchUrlAt (cs : List Char) : Option (List Char × List Char) :=
  let scheme? : Option (List Char × List Char) :=
    match stripPrefixChars "https://".data cs with
    | some r => some ("https://".data, r)
    | none =>
      match stripPrefixChars "http://".data cs with
      | some r => some ("http://".data, r)
      | none => none
  match scheme? with
  | none => none
  | some (scheme, r) =>
    let b := takeUrlBody r
    if b.1.isEmpty then none else some (scheme ++ b.1, b.2)

/-- `re.findall` of `https?://[^\s)]+`: scan left to right, emit each
non-overlapping match, advance one character after a failed position.
`fuel` bounds the recursion and is instantiated with the input length. -/
def scanUrls : Nat → List Char → List (List Char)
  | 0, _ => []
  | _, [] => []
  | Nat.succ fuel, c :: cs =>
    match matchUrlAt (c :: cs) with
    | some (url, rest) => url :: scanUrls fuel rest
    | none => scanUrls fuel cs

/-- All matches of the URL regex in `text`, in order of appearance. -/
def findall_urls (text : String) : List String :=
  (scanUrls text.data.length text.data).map (fun cs => String.mk cs)

/-- `get_json_file_urls_from_string` (`main.py` 18–25): the regex matches
that end in `.json`, in order of appearance. -/
def get_json_file_urls_from_string (text : String) : List String :=
  (findall_urls text).filter (fun u => List.isSuffixOf ".json".data u.data)

/-- Lazy group match of `(.*?)\)` anchored right after an opening
parenthesis: the shortest run of non-newline characters up to a closing
parenthesis (`.` does not match a newline in Python's default mode). -/
def grabGroup : List Char → Option (List Char)
  | [] => none
  | c :: rest =>
    if c = ')' then some []
    else if c = '\n' then none
    else
      match grabGroup rest with
      | some g => some (c :: g)
      | none => none

/-- First match of `re.findall(r"\((.*?)\)", text)`: scan for an opening
parenthesis whose lazy group succeeds; on failure resume one character
later, exactly as the regex engine does. -/
def firstParenGroup : List Char → Option (List Char)
  | [] => none
  | c :: rest =>
    if c = '(' then
      match grabGroup rest with
      | some g => some g
      | none => firstParenGroup rest
    else firstParenGroup rest

/-- `get_unique_id_from_string` (`main.py` 113–118): the first parenthesized
group's inner content when one exists, the text unchanged otherwise. -/
def get_unique_id_from_string (text : String) : String :=
  match firstParenGroup text.data with
  | none => text
  | some g => String.mk g

/-! ### Unique-name check (`main.py` 102–110) -/

/-- Python `s.lower().replace(" ", "-")` on the unique name, then `".json"`.
`str.lower` agrees with `Char.toLower` on the ASCII names in scope, and a
single-character `str.replace` is a character map. -/
def unique_name_filename (s : String) : String :=
  String.mk ((s.data.map Char.toLower).map (fun c => if c = ' ' then '-' else c)) ++ ".json"

/-- `_check_unique_name` (`main.py` 102–110): `KeyError`-style membership
test, emptiness (truthiness) test, then filename derivation. A truthy
non-string value makes Python's `.lower()` raise `AttributeError`. Records
that are not JSON objects make the Python `in`-test or subscript raise
(`TypeError` or `ValueError` depending on the shape); no claim
distinguishes those shapes, so they are collapsed to one modelled error. -/
def check_unique_name (ent : Json) : Except PipeErr String :=
  match ent with
  | Json.obj fields =>
    match jlookup fields "unique_name" with
    | none => Except.error (PipeErr.valueError "unique name does not exist")
    | some v =>
      if truthy v then
        match v with
        | Json.str s => Except.ok (unique_name_filename s)
        | _ => Except.error (PipeErr.attrError "lower")
      else Except.error (PipeErr.valueError "Unique name is empty")
  | _ => Except.error (PipeErr.typeError "record is not an object")

/-! ### Entity schema (`interface.py`) -/

/-- `Licenses` (`interface.py` 19–23). -/
structure Licenses where
  name : String
  spdx_id : Option String
deriving DecidableEq

/-- `Organization` (`interface.py` 26–31). -/
structure Organization where
  name : String
  description : Option String
  url : Option String
deriving DecidableEq

/-- `ProgrammingLanguage` (`interface.py` 10–16). -/
structure ProgrammingLanguage where
  name : String
  url : String
  licenses : List String
  description : Option String
deriving DecidableEq

/-- `SoftwareTool` (`interface.py` 42–53). -/
structure SoftwareTool where
  name : String
  categories : List String
  languages : List String
  organizations : List String
  licenses : List String
  description : Option String
  url_website : Option String
  url_sourcecode : Option String
  url_docs : Option String
deriving DecidableEq

/-- Python `d[k]` on a record: the value, or a `KeyError` naming the key. -/
def getItem (fields : List (String × Json)) (key : String) : Except PipeErr Json :=
  match jlookup fields key with
  | none => Except.error (PipeErr.keyError key)
  | some v => Except.ok v

/-- Pydantic validation of a required `str` field: a JSON string validates,
anything else (including `null`) is a `ValidationError` naming the field. -/
def requireStr (field : String) (v : Json) : Except PipeErr String :=
  match v with
  | Json.str s => Except.ok s
  | _ => Except.error (PipeErr.validationError field)

/-- Pydantic validation of an `Optional[str]` field: `null` becomes the
absent marker, a string is kept, anything else is a `ValidationError`. -/
def optionalStr (field : String) (v : Json) : Except PipeErr (Option String) :=
  match v with
  | Json.null => Except.ok none
  | Json.str s => Except.ok (some s)
  | _ => Except.error (PipeErr.validationError field)

/-- `list(map(get_unique_id_from_string, v))`. A JSON array of strings maps
element-wise; a string iterates its one-character substrings; an object
iterates its keys; other values are not iterable (`TypeError`). An array
holding a non-string element makes `re.findall` raise a `TypeError`. -/
def ids_of (field : String) (v : Json) : Except PipeErr (List String) :=
  match v with
  | Json.arr elems =>
    elems.foldr
      (fun el acc =>
        match el with
        | Json.str s =>
          match acc with
          | Except.ok rest => Except.ok (get_unique_id_from_string s :: rest)
          | e => e
        | _ => Except.error (PipeErr.typeError "expected string or bytes-like object"))
      (Except.ok [])
  | Json.str s => Except.ok (s.data.map (fun c => get_unique_id_from_string (String.mk [c])))
  | Json.obj fields => Except.ok (fields.map (fun kv => get_unique_id_from_string kv.1))
  | _ => Except.error (PipeErr.typeError (field ++ " is not iterable"))

/-- `Licenses(name=lic["name"])` (`main.py` 137): subscript then pydantic
validation; `spdx_id` is never passed and keeps its declared default. -/
def license_entity_of (lic : Json) : Except PipeErr Licenses :=
  match lic with
  | Json.obj fields =>
    match getItem fields "name" with
    | Except.error e => Except.error e
    | Except.ok v =>
      match requireStr "name" v with
      | Except.error e => Except.error e
      | Except.ok s => Except.ok { name := s, spdx_id := none }
  | _ => Except.error (PipeErr.typeError "record is not an object")

/-- `Organization(name=org["name"], description=org["description"],
url=org["url"])` (`main.py` 150–152): the keyword subscripts evaluate in
source order (so the first missing key raises its `KeyError`), then
pydantic validates the fields in declaration order. -/
def organization_entity_of (org : Json) : Except PipeErr Organization :=
  match org with
  | Json.obj fields =>
    match getItem fields "name" with
    | Except.error e => Except.error e
    | Except.ok nv =>
      match getItem fields "description" with
      | Except.error e => Except.error e
      | Except.ok dv =>
        match getItem fields "url" with
        | Except.error e => Except.error e
        | Except.ok uv =>
          match requireStr "name" nv with
          | Except.error e => Except.error e
          | Except.ok n =>
            match optionalStr "description" dv with
            | Except.error e => Except.error e
            | Except.ok d =>
              match optionalStr "url" uv with
              | Except.error e => Except.error e
              | Except.ok u => Except.ok { name := n, description := d, url := u }
  | _ => Except.error (PipeErr.typeError "record is not an object")

/-- `ProgrammingLanguage(...)` (`main.py` 165–170): subscripts in source
order (name, description, url, licenses — with the licenses list mapped
through the identifier extractor), then pydantic validation in field
declaration order (name, url, licenses, description). -/
def language_entity_of (lang : Json) : Except PipeErr ProgrammingLanguage :=
  match lang with
  | Json.obj fields =>
    match getItem fields "name" with
    | Except.error e => Except.error e
    | Except.ok nv =>
      match getItem fields "description" with
      | Except.error e => Except.error e
      | Except.ok dv =>
        match getItem fields "url" with
        | Except.error e => Except.error e
        | Except.ok uv =>
          match getItem fields "licenses" with
          | Except.error e => Except.error e
          | Except.ok lv =>
            match ids_of "licenses" lv with
            | Except.error e => Except.error e
            | Except.ok lics =>
              match requireStr "name" nv with
              | Except.error e => Except.error e
              | Except.ok n =>
                match requireStr "url" uv with
                | Except.error e => Except.error e
                | Except.ok u =>
                  match optionalStr "description" dv with
                  | Except.error e => Except.error e
                  | Except.ok d =>
                    Except.ok { name := n, url := u, licenses := lics, description := d }
  | _ => Except.error (PipeErr.typeError "record is not an object")

/-- `SoftwareTool(...)` (`main.py` 183–195): subscripts in source order
(name, description, licenses, languages, organizations, categories,
url_website, url_sourcecode, url_docs — list fields mapped through the
identifier extractor), then pydantic validation in declaration order. -/
def software_entity_of (soft : Json) : Except PipeErr SoftwareTool :=
  match soft with
  | Json.obj fields =>
    match getItem fields "name" with
    | Except.error e => Except.error e
    | Except.ok nv =>
      match getItem fields "description" with
      | Except.error e => Except.error e
      | Except.ok dv =>
        match getItem fields "licenses" with
        | Except.error e => Except.error e
        | Except.ok licv =>
          match ids_of "licenses" licv with
          | Except.error e => Except.error e
          | Except.ok lics =>
            match getItem fields "languages" with
            | Except.error e => Except.error e
            | Except.ok langv =>
              match ids_of "languages" langv with
              | Except.error e => Except.error e
              | Except.ok langs =>
                match getItem fields "organizations" with
                | Except.error e => Except.error e
                | Except.ok orgv =>
                  match ids_of "organizations" orgv with
                  | Except.error e => Except.error e
                  | Except.ok orgs =>
                    match getItem fields "categories" with
                    | Except.error e => Except.error e
                    | Except.ok catv =>
                      match ids_of "categories" catv with
                      | Except.error e => Except.error e
                      | Except.ok cats =>
                        match getItem fields "url_website" with
                        | Except.error e => Except.error e
                        | Except.ok wv =>
                          match getItem fields "url_sourcecode" with
                          | Except.error e => Except.error e
                          | Except.ok sv =>
                            match getItem fields "url_docs" with
                            | Except.error e => Except.error e
                            | Except.ok docv =>
                              match requireStr "name" nv with
                              | Except.error e => Except.error e
                              | Except.ok n =>
                                match optionalStr "description" dv with
                                | Except.error e => Except.error e
                                | Except.ok d =>
                                  match optionalStr "url_website" wv with
                                  | Except.error e => Except.error e
                                  | Except.ok w =>
                                    match optionalStr "url_sourcecode" sv with
                                    | Except.error e => Except.error e
                                    | Except.ok srcu =>
                                      match optionalStr "url_docs" docv with
                                      | Except.error e => Except.error e
                                      | Except.ok docu =>
                                        Except.ok { name := n, categories := cats, languages := langs,
                                                    organizations := orgs, licenses := lics, description := d,
                                                    url_website := w, url_sourcecode := srcu, url_docs := docu }
  | _ => Except.error (PipeErr.typeError "record is not an object")

/-! ### Serialization (`json.dump(obj.model_dump(), fp, indent=4)`)

The renderers reproduce `json.dump` with `indent=4` and `model_dump`'s
field-declaration order. Escaping of special characters inside string
values is not modelled (no stated property depends on it). -/

/-- A JSON string literal. -/
def jstr (s : String) : String := "\"" ++ s ++ "\""

/-- A JSON value for an `Optional[str]` field: `null` or a string literal. -/
def jopt : Option String → String
  | none => "null"
  | some s => jstr s

/-- A JSON array of strings at one nesting level, `indent=4` style. -/
def jlist : List String → String
  | [] => "[]"
  | xs => "[\n" ++ String.intercalate ",\n" (xs.map (fun s => "        " ++ jstr s)) ++ "\n    ]"

/-- Serialized form of a `Licenses` entity. -/
def license_render (e : Licenses) : String :=
  "\x7b\n    " ++ jstr "name" ++ ": " ++ jstr e.name ++ ",\n    " ++ jstr "spdx_id" ++ ": " ++ jopt e.spdx_id ++ "\n\x7d"

/-- Serialized form of an `Organization` entity. -/
def organization_render (e : Organization) : String :=
  "\x7b\n    " ++ jstr "name" ++ ": " ++ jstr e.name ++ ",\n    " ++ jstr "description" ++ ": " ++ jopt e.description ++ ",\n    " ++ jstr "url" ++ ": " ++ jopt e.url ++ "\n\x7d"

/-- Serialized form of a `ProgrammingLanguage` entity. -/
def language_render (e : ProgrammingLanguage) : String :=
  "\x7b\n    " ++ jstr "name" ++ ": " ++ jstr e.name ++ ",\n    " ++ jstr "url" ++ ": " ++ jstr e.url ++ ",\n    " ++ jstr "licenses" ++ ": " ++ jlist e.licenses ++ ",\n    " ++ jstr "description" ++ ": " ++ jopt e.description ++ "\n\x7d"

/-- Serialized form of a `SoftwareTool` entity. -/
def software_render (e : SoftwareTool) : String :=
  "\x7b\n    " ++ jstr "name" ++ ": " ++ jstr e.name ++ ",\n    " ++ jstr "categories" ++ ": " ++ jlist e.categories ++ ",\n    " ++ jstr "languages" ++ ": " ++ jlist e.languages ++ ",\n    " ++ jstr "organizations" ++ ": " ++ jlist e.organizations ++ ",\n    " ++ jstr "licenses" ++ ": " ++ jlist e.licenses ++ ",\n    " ++ jstr "description" ++ ": " ++ jopt e.description ++ ",\n    " ++ jstr "url_website" ++ ": " ++ jopt e.url_website ++ ",\n    " ++ jstr "url_sourcecode" ++ ": " ++ jopt e.url_sourcecode ++ ",\n    " ++ jstr "url_docs" ++ ": " ++ jopt e.url_docs ++ "\n\x7d"

/-- Validated construction followed by serialization, per collection. -/
def license_serialize (lic : Json) : Except PipeErr String :=
  match license_entity_of lic with
  | Except.error e => Except.error e
  | Except.ok e => Except.ok (license_render e)

/-- Validated construction followed by serialization, organizations. -/
def organization_serialize (org : Json) : Except PipeErr String :=
  match organization_entity_of org with
  | Except.error e => Except.error e
  | Except.ok e => Except.ok (organization_render e)

/-- Validated construction followed by serialization, languages. -/
def language_serialize (lang : Json) : Except PipeErr String :=
  match language_entity_of lang with
  | Except.error e => Except.error e
  | Except.ok e => Except.ok (language_render e)

/-- Validated construction followed by serialization, software tools. -/
def software_serialize (soft : Json) : Except PipeErr String :=
  match software_entity_of soft with
  | Except.error e => Except.error e
  | Except.ok e => Except.ok (software_render e)

/-! ### Materializer (`main.py` 121–228) -/

/-- The filesystem slice the pipeline touches: a map from paths to file
contents, as an association list (first binding wins on lookup). -/
def FS : Type := List (String × String)

instance : DecidableEq FS := by
  unfold FS
  infer_instance

/-- `dump_new_file` (`main.py` 121–127): write only when the path does not
exist, returning the path exactly when a file was newly created. -/
def dump_new_file (content : String) (json_file : String) (fs : FS) : Option String × FS :=
  if (List.lookup json_file fs).isSome then (none, fs)
  else (some json_file, (json_file, content) :: fs)

/-- The shared loop body of `update_licenses`, `update_organizations`,
`update_languages` and `update_software` (`main.py` 130–199): check the
unique name, construct and serialize the entity, dump when new, collect
the newly created paths in record order. Validation errors abort the
whole loop (Python exceptions propagate). -/
def update_loop (ser : Json → Except PipeErr String) : List Json → String → FS → Except PipeErr (List String × FS)
  | [], _, fs => Except.ok ([], fs)
  | rec :: rest, path, fs =>
    match check_unique_name rec with
    | Except.error e => Except.error e
    | Except.ok file_name =>
      match ser rec with
      | Except.error e => Except.error e
      | Except.ok content =>
        let rd := dump_new_file content (path ++ "/" ++ file_name) fs
        match update_loop ser rest path rd.2 with
        | Except.error e => Except.error e
        | Except.ok (ps, fs2) =>
          match rd.1 with
          | some p => Except.ok (p :: ps, fs2)
          | none => Except.ok (ps, fs2)

/-- `update_licenses` (`main.py` 130–142). -/
def update_licenses (licenses : List Json) (license_path : String) (fs : FS) : Except PipeErr (List String × FS) :=
  update_loop license_serialize licenses license_path fs

/-- `update_organizations` (`main.py` 145–156). -/
def update_organizations (orgs : List Json) (org_path : String) (fs : FS) : Except PipeErr (List String × FS) :=
  update_loop organization_serialize orgs org_path fs

/-- `update_languages` (`main.py` 159–174). -/
def update_languages (langs : List Json) (lang_path : String) (fs : FS) : Except PipeErr (List String × FS) :=
  update_loop language_serialize langs lang_path fs

/-- `update_software` (`main.py` 177–199). -/
def update_software (softs : List Json) (soft_path : String) (fs : FS) : Except PipeErr (List String × FS) :=
  update_loop software_serialize softs soft_path fs

/-- One `if key in issue_content and issue_content[key]:` guard of
`process_issue_json_file`: run the collection's update when the key is
present and truthy. A present, truthy value that is not a JSON array makes
the Python `for` loop fail with an exception; no claim distinguishes its
class, so it is modelled as one `typeError`. -/
def run_collection (upd : List Json → String → FS → Except PipeErr (List String × FS))
    (key : String) (payload : List (String × Json)) (path : String) (fs : FS) :
    Except PipeErr (List String × FS) :=
  match jlookup payload key with
  | none => Except.ok ([], fs)
  | some v =>
    if truthy v then
      match v with
      | Json.arr recs => upd recs path fs
      | _ => Except.error (PipeErr.typeError key)
    else Except.ok ([], fs)

/-- `process_issue_json_file` (`main.py` 202–228): the four recognized
collections in order, accumulating newly created paths. The issue payload
is the parsed JSON object; the downloaded file itself is outside the
filesystem slice modelled by `FS`. -/
def process_issue_json_file (payload : List (String × Json)) (data_path : String) (fs : FS) :
    Except PipeErr (List String × FS) :=
  match run_collection update_licenses "licenses" payload (data_path ++ "/licenses") fs with
  | Except.error e => Except.error e
  | Except.ok (f1, fs1) =>
    match run_collection update_organizations "organizations" payload (data_path ++ "/organizations") fs1 with
    | Except.error e => Except.error e
    | Except.ok (f2, fs2) =>
      match run_collection update_languages "languages" payload (data_path ++ "/languages") fs2 with
      | Except.error e => Except.error e
      | Except.ok (f3, fs3) =>
        match run_collection update_software "software" payload (data_path ++ "/software") fs3 with
        | Except.error e => Except.error e
        | Except.ok (f4, fs4) => Except.ok (f1 ++ f2 ++ f3 ++ f4, fs4)

/-! ### Issue file locator (`main.py` 28–70) and driver dispatch (246–281)

`get_json_response` returns the parsed JSON on HTTP 200 and `None`
otherwise, so its two call sites are modelled by `Option`-valued inputs:
the comment list (each comment stands for its `body` string) and the
issue object (its optional `body` field). The unauthenticated file GET is
modelled by the predicate `fetchOk`, true exactly when the status is 200. -/

/-- The issue object fetched as the fallback: its `body` field, absent
when the key is missing or `null`. -/
structure IssueObj where
  body : Option String

/-- The four ways `download_data_file` can come back to `main`: `None`,
`False`, a downloaded file name, or an uncaught exception (the
`AttributeError` from `body.get` when the issue fetch returned `None`). -/
inductive LocResult where
  | retNone
  | retFalse
  | retFile (name : String)
  | raisedAttrError
deriving DecidableEq

/-- Python `url.split("/")` (single-character separator, empties kept). -/
def splitOnChar (sep : Char) : List Char → List (List Char)
  | [] => [[]]
  | c :: cs =>
    let r := splitOnChar sep cs
    if c = sep then [] :: r
    else
      match r with
      | [] => [[c]]
      | h :: t => (c :: h) :: t

/-- `latest_json_file.split("/")[-1]` (`main.py` 60). -/
def lastSegment (url : String) : String :=
  String.mk ((splitOnChar '/' url.data).getLastD [])

/-- Lines 54–70 of `download_data_file`, shared by both extraction paths:
empty extraction returns `None`; otherwise the last URL is fetched, a
non-200 status returns `False`, and success returns the local file name. -/
def proceedJson (json_files : List String) (fetchOk : String → Bool) : LocResult :=
  match json_files with
  | [] => LocResult.retNone
  | f :: fs =>
    let latest := (f :: fs).getLastD ""
    if fetchOk latest then LocResult.retFile (lastSegment latest)
    else LocResult.retFalse

/-- The fallback branch (`main.py` 47–50): `body.get("body")` on the issue
fetch result; a `None` result makes that attribute access raise. -/
def fallbackBody (issue : Option IssueObj) (fetchOk : String → Bool) : LocResult :=
  match issue with
  | none => LocResult.raisedAttrError
  | some obj =>
    match obj.body with
    | none => LocResult.retNone
    | some b =>
      if b = "" then LocResult.retNone
      else proceedJson (get_json_file_urls_from_string b) fetchOk

/-- `download_data_file` (`main.py` 41–70). `if not comments` sends both
the absent and the empty comment list to the fallback; otherwise only the
last comment's body is scanned. -/
def download_data_file (comments : Option (List String)) (issue : Option IssueObj)
    (fetchOk : String → Bool) : LocResult :=
  match comments with
  | none => fallbackBody issue fetchOk
  | some [] => fallbackBody issue fetchOk
  | some (c :: cs) => proceedJson (get_json_file_urls_from_string ((c :: cs).getLastD "")) fetchOk

/-- How `main` (`main.py` 262–281) reacts to the locator's outcome:
a falsy return (`None` or `False`) returns silently, a file name proceeds
to processing, and an uncaught exception reaches the top-level handler,
which writes the `errormessage` output. -/
inductive MainOutcome where
  | silent
  | proceed (fileName : String)
  | errormessage
deriving DecidableEq

/-- The dispatch on `file_name = download_data_file(...)` in `main`
(`main.py` 263–265 and the enclosing `except` at 278–281). -/
def main_dispatch : LocResult → MainOutcome
  | LocResult.retNone => MainOutcome.silent
  | LocResult.retFalse => MainOutcome.silent
  | LocResult.retFile n => MainOutcome.proceed n
  | LocResult.raisedAttrError => MainOutcome.errormessage

/-! ### Filesystem lemmas for the materializer -/

/-- Filesystem extension: every binding of `a` is preserved in `b`. -/
def fsLe (a b : FS) : Prop :=
  ∀ q v, List.lookup q a = some v → List.lookup q b = some v

theorem fsLe_refl (a : FS) : fsLe a a := fun _ _ h => h

theorem fsLe_trans {a b c : FS} (h1 : fsLe a b) (h2 : fsLe b c) : fsLe a c :=
  fun q v h => h2 q v (h1 q v h)

theorem fsLe_isSome {a b : FS} (h : fsLe a b) {p : String}
    (hp : (List.lookup p a).isSome = true) : (List.lookup p b).isSome = true := by
  obtain ⟨v, hv⟩ := Option.isSome_iff_exists.mp hp
  exact Option.isSome_iff_exists.mpr ⟨v, h p v hv⟩

theorem dump_new_file_le (c p : String) (fs : FS) : fsLe fs (dump_new_file c p fs).2 := by
  intro q v hq
  unfold dump_new_file
  split
  · exact hq
  · rename_i hnone
    by_cases hqp : q = p
    · subst hqp
      rw [hq] at hnone
      simp at hnone
    · have hne : (q == p) = false := by simp [hqp]
      simpa [List.lookup, hne] using hq

theorem dump_new_file_mem (c p : String) (fs : FS) :
    (List.lookup p (dump_new_file c p fs).2).isSome = true := by
  unfold dump_new_file
  split
  · assumption
  · simp [List.lookup]

theorem dump_new_file_skip (c p : String) (fs : FS)
    (h : (List.lookup p fs).isSome = true) : dump_new_file c p fs = (none, fs) := by
  simp [dump_new_file, h]

theorem update_loop_le (ser : Json → Except PipeErr String) (recs : List Json)
    (path : String) (fs : FS) (ps : List String) (fs2 : FS)
    (h : update_loop ser recs path fs = Except.ok (ps, fs2)) : fsLe fs fs2 := by
  induction recs generalizing fs ps with
  | nil =>
    simp only [update_loop, Except.ok.injEq, Prod.mk.injEq] at h
    rw [h.2]
    exact fsLe_refl _
  | cons rec rest ih =>
    simp only [update_loop] at h
    split at h
    · exact absurd h (by simp)
    · rename_i fn hfn
      split at h
      · exact absurd h (by simp)
      · rename_i content hcontent
        split at h
        · exact absurd h (by simp)
        · rename_i ps' fs2' hrest
          have hfs2 : fs2' = fs2 := by
            split at h <;> (cases h; rfl)
          subst hfs2
          exact fsLe_trans (dump_new_file_le content (path ++ "/" ++ fn) fs) (ih _ _ hrest)

theorem update_loop_rerun (ser : Json → Except PipeErr String) (recs : List Json)
    (path : String) (fs : FS) (ps : List String) (fs2 big : FS)
    (h : update_loop ser recs path fs = Except.ok (ps, fs2)) (hbig : fsLe fs2 big) :
    update_loop ser recs path big = Except.ok ([], big) := by
  induction recs generalizing fs ps with
  | nil => simp [update_loop]
  | cons rec rest ih =>
    simp only [update_loop] at h
    split at h
    · exact absurd h (by simp)
    · rename_i fn hfn
      split at h
      · exact absurd h (by simp)
      · rename_i content hcontent
        split at h
        · exact absurd h (by simp)
        · rename_i ps' fs2' hrest
          have hfs2 : fs2' = fs2 := by
            split at h <;> (cases h; rfl)
          subst hfs2
          have hmem : (List.lookup (path ++ "/" ++ fn) big).isSome = true := by
            refine fsLe_isSome (fsLe_trans (update_loop_le ser rest path _ _ _ hrest) hbig) ?_
            exact dump_new_file_mem content (path ++ "/" ++ fn) fs
          have hdump := dump_new_file_skip content (path ++ "/" ++ fn) big hmem
          have htail := ih _ _ hrest
          simp only [update_loop, hfn, hcontent, hdump, htail]

theorem run_collection_le
    (upd : List Json → String → FS → Except PipeErr (List String × FS))
    (key : String) (payload : List (String × Json)) (path : String)
    (fs : FS) (ps : List String) (fs2 : FS)
    (hupd : ∀ recs p f ps2 f2, upd recs p f = Except.ok (ps2, f2) → fsLe f f2)
    (h : run_collection upd key payload path fs = Except.ok (ps, fs2)) : fsLe fs fs2 := by
  unfold run_collection at h
  split at h
  · cases h
    exact fsLe_refl _
  · split at h
    · split at h
      · exact hupd _ _ _ _ _ h
      · exact absurd h (by simp)
    · cases h
      exact fsLe_refl _

theorem run_collection_rerun
    (upd : List Json → String → FS → Except PipeErr (List String × FS))
    (key : String) (payload : List (String × Json)) (path : String)
    (fs : FS) (ps : List String) (fs2 big : FS)
    (hupd : ∀ recs p f ps2 f2, upd recs p f = Except.ok (ps2, f2) → fsLe f2 big →
      upd recs p big = Except.ok ([], big))
    (h : run_collection upd key payload path fs = Except.ok (ps, fs2)) (hbig : fsLe fs2 big) :
    run_collection upd key payload path big = Except.ok ([], big) := by
  unfold run_collection at h ⊢
  split at h <;> rename_i hlook
  · rfl
  · split at h <;> rename_i htr
    · rw [if_pos htr]
      split at h
      · exact hupd _ _ _ _ _ h hbig
      · exact absurd h (by simp)
    · rw [if_neg htr]

/-! ### Locator lemmas -/

theorem getLastD_append_single {α : Type} (l : List α) (x : α) (d : α) :
    (l ++ [x]).getLastD d = x := by
  induction l generalizing d with
  | nil => rfl
  | cons a as ih =>
    rw [List.cons_append, List.getLastD_cons]
    exact ih a

theorem getLastD_of_getLast? {α : Type} {l : List α} {u : α} (h : l.getLast? = some u)
    (d : α) : l.getLastD d = u := by
  rw [List.getLastD_eq_getLast?, h]
  rfl

/-- With a non-empty comment list, `download_data_file` is exactly the
shared tail `proceedJson` applied to the URLs of the last comment's body:
earlier comments and the issue object never enter. -/
theorem download_comments_eq (cs : List String) (c : String) (issue : Option IssueObj)
    (fetchOk : String → Bool) :
    download_data_file (some (cs ++ [c])) issue fetchOk =
      proceedJson (get_json_file_urls_from_string c) fetchOk := by
  cases cs with
  | nil => rfl
  | cons a as =>
    show proceedJson (get_json_file_urls_from_string ((a :: (as ++ [c])).getLastD "")) fetchOk =
      proceedJson (get_json_file_urls_from_string c) fetchOk
    rw [List.getLastD_cons, getLastD_append_single]

theorem proceedJson_last {json_files : List String} {u : String}
    (hlast : json_files.getLast? = some u) (fetchOk : String → Bool) :
    proceedJson json_files fetchOk =
      (if fetchOk u then LocResult.retFile (lastSegment u) else LocResult.retFalse) := by
  cases json_files with
  | nil => simp [List.getLast?] at hlast
  | cons f fs =>
    have hd : (f :: fs).getLastD "" = u := getLastD_of_getLast? hlast ""
    simp only [proceedJson, hd]

/-! ### Claim theorems -/

/-- C1 (counterexample). A concrete invocation in which a candidate JSON
file URL was positively identified from the last comment and the file GET
returns non-200: the driver dispatch is the silent return, not the
`errormessage` output — refuting the claim that a non-200 at this step
propagates to the top-level handler. -/
theorem non200_no_errormessage_counterexample :
    main_dispatch (download_data_file (some ["u https://h/a.json"]) none (fun _ => false)) =
      MainOutcome.silent
    ∧ MainOutcome.silent ≠ MainOutcome.errormessage := by decide

/-- C1 (amended). When a candidate was positively identified (the
extracted URL list has a last element) and its GET returns non-200, the
locator returns the sentinel `False` — a value distinct from the absent
`None` — but the driver treats both identically, returning silently
without emitting `errormessage`. -/
theorem non200_locator_false_driver_silent (json_files : List String) (u : String)
    (fetchOk : String → Bool) (cs : List String) (c : String) (issue : Option IssueObj)
    (hurls : get_json_file_urls_from_string c = json_files)
    (hlast : json_files.getLast? = some u) (hfail : fetchOk u = false) :
    download_data_file (some (cs ++ [c])) issue fetchOk = LocResult.retFalse
    ∧ main_dispatch LocResult.retFalse = MainOutcome.silent
    ∧ main_dispatch LocResult.retNone = MainOutcome.silent
    ∧ LocResult.retFalse ≠ LocResult.retNone := by
  refine ⟨?_, rfl, rfl, by decide⟩
  rw [download_comments_eq, hurls, proceedJson_last hlast, hfail]
  rfl

theorem non200_locator_false_driver_silent_witness :
    download_data_file (some ["u https://h/a.json"]) none (fun _ => false) = LocResult.retFalse :=
  (non200_locator_false_driver_silent ["https://h/a.json"] "https://h/a.json" (fun _ => false)
    [] "u https://h/a.json" none (by decide) (by decide) (by decide)).1

/-- C2. When the comment fetch returns absent (`None`) or an empty list
and the fallback issue fetch also returns absent, `download_data_file`
does not complete normally with an absent result: `body.get("body")` is
evaluated on `None` and raises `AttributeError`, which the top-level
handler turns into the `errormessage` output. -/
theorem absent_fallback_raises_attrerror :
    download_data_file none none (fun _ => true) = LocResult.raisedAttrError
    ∧ download_data_file (some []) none (fun _ => true) = LocResult.raisedAttrError
    ∧ main_dispatch LocResult.raisedAttrError = MainOutcome.errormessage
    ∧ MainOutcome.errormessage ≠ MainOutcome.silent := by decide

/-- C3. A raw organization record carrying a non-empty `unique_name` and a
`name` but lacking the optional keys: entity construction does not
succeed — the unconditional subscript `org["description"]` raises a
`KeyError`, aborting the invocation. -/
theorem organization_missing_optional_keys_keyerror :
    update_organizations [Json.obj [("unique_name", Json.str "acme"), ("name", Json.str "Acme")]]
      "data/organizations" [] = Except.error (PipeErr.keyError "description")
    ∧ organization_entity_of (Json.obj [("unique_name", Json.str "acme"), ("name", Json.str "Acme")]) =
        Except.error (PipeErr.keyError "description")
    ∧ organization_entity_of
        (Json.obj [("unique_name", Json.str "acme"), ("name", Json.str "Acme"),
                   ("description", Json.str "d")]) =
        Except.error (PipeErr.keyError "url") := ⟨rfl, rfl, rfl⟩

/-- C4 (counterexample). A raw license record whose `name` is the empty
string: entity construction succeeds (no non-emptiness check exists on
pydantic's plain `str`), and an entity file is written — refuting the
claimed validation failure. -/
theorem empty_license_name_counterexample :
    license_entity_of (Json.obj [("unique_name", Json.str "empty"), ("name", Json.str "")]) =
      Except.ok { name := "", spdx_id := none }
    ∧ update_licenses [Json.obj [("unique_name", Json.str "empty"), ("name", Json.str "")]]
        "data/licenses" [] =
      Except.ok (["data/licenses/empty.json"],
        [("data/licenses/empty.json", license_render { name := "", spdx_id := none })]) := ⟨rfl, rfl⟩

/-- C4 (amended). License construction fails with a validation error
naming `name` only when the value is present and not text; a missing
`name` key raises a `KeyError` instead; every string value — the empty
string included — is accepted, and for the empty-string record an entity
file is written. -/
theorem license_name_validation_amended :
    (∀ fields s, jlookup fields "name" = some (Json.str s) →
      license_entity_of (Json.obj fields) = Except.ok { name := s, spdx_id := none })
    ∧ (∀ fields, jlookup fields "name" = none →
      license_entity_of (Json.obj fields) = Except.error (PipeErr.keyError "name"))
    ∧ (∀ fields, jlookup fields "name" = some Json.null →
      license_entity_of (Json.obj fields) = Except.error (PipeErr.validationError "name"))
    ∧ update_licenses [Json.obj [("unique_name", Json.str "e"), ("name", Json.str "")]] "p" [] =
        Except.ok (["p/e.json"], [("p/e.json", license_render { name := "", spdx_id := none })]) := by
  refine ⟨?_, ?_, ?_, rfl⟩
  · intro fields s h
    simp [license_entity_of, getItem, h, requireStr]
  · intro fields h
    simp [license_entity_of, getItem, h]
  · intro fields h
    simp [license_entity_of, getItem, h, requireStr]

theorem license_name_validation_amended_witness :
    license_entity_of (Json.obj [("name", Json.str "MIT")]) =
      Except.ok { name := "MIT", spdx_id := none } :=
  license_name_validation_amended.1 [("name", Json.str "MIT")] "MIT" rfl

/-- C5 (counterexample). On the spec's example input the extractor returns
the empty list, not `["a.json", "c.json"]`: the contained links carry no
HTTP scheme, so nothing matches the regex. -/
theorem extract_json_urls_schemeless_counterexample :
    get_json_file_urls_from_string "see a.json and b.txt and c.json" = []
    ∧ ([] : List String) ≠ ["a.json", "c.json"] := by decide

/-- C5 (amended). Every URL the extractor returns ends in `.json`; a text
with no match yields the empty sequence; and on interleaved scheme-bearing
links exactly the `.json` ones are returned, in order of appearance. -/
theorem extract_json_urls_amended :
    (∀ text u, u ∈ get_json_file_urls_from_string text →
      List.isSuffixOf ".json".data u.data = true)
    ∧ get_json_file_urls_from_string
        "see http://h/a.json and http://h/b.txt and http://h/c.json" =
        ["http://h/a.json", "http://h/c.json"]
    ∧ get_json_file_urls_from_string "" = [] := by
  refine ⟨?_, by decide, by decide⟩
  intro text u hu
  exact (List.mem_filter.mp hu).2

theorem extract_json_urls_amended_witness :
    List.isSuffixOf ".json".data "http://h/a.json".data = true :=
  extract_json_urls_amended.1 "see http://h/a.json" "http://h/a.json" (by decide)

/-- C6. With a present, non-empty comment list the locator consults only
the last comment (earlier comments and the issue body are never used),
and among the extracted URLs it fetches the last one in textual order;
on the spec's example pair the selected URL is `https://x/b.json`. -/
theorem locator_last_comment_last_url (cs : List String) (c : String)
    (issue issue2 : Option IssueObj) (fetchOk : String → Bool) (u : String)
    (hlast : (get_json_file_urls_from_string c).getLast? = some u) :
    download_data_file (some (cs ++ [c])) issue fetchOk =
      download_data_file (some [c]) issue2 fetchOk
    ∧ download_data_file (some (cs ++ [c])) issue fetchOk =
        (if fetchOk u then LocResult.retFile (lastSegment u) else LocResult.retFalse)
    ∧ download_data_file (some ["see https://x/a.json and https://x/b.json"]) issue fetchOk =
        (if fetchOk "https://x/b.json" then LocResult.retFile "b.json" else LocResult.retFalse) := by
  refine ⟨?_, ?_, ?_⟩
  · rw [download_comments_eq cs c issue fetchOk]
    rfl
  · rw [download_comments_eq cs c issue fetchOk, proceedJson_last hlast]
  · have he : get_json_file_urls_from_string "see https://x/a.json and https://x/b.json" =
        ["https://x/a.json", "https://x/b.json"] := by decide
    have hseg : lastSegment "https://x/b.json" = "b.json" := by decide
    show proceedJson
      (get_json_file_urls_from_string "see https://x/a.json and https://x/b.json") fetchOk = _
    rw [he]
    simp [proceedJson, hseg]

theorem locator_last_comment_last_url_witness :
    download_data_file (some ["earlier comment", "see https://x/a.json and https://x/b.json"])
      none (fun s => s == "https://x/b.json") = LocResult.retFile "b.json" := by
  have h := (locator_last_comment_last_url ["earlier comment"]
    "see https://x/a.json and https://x/b.json" none none
    (fun s => s == "https://x/b.json") "https://x/b.json" (by decide)).2.1
  simpa using h

/-- Evaluation of `_check_unique_name` on a record whose `unique_name`
value is a string `s`: empty is a `ValueError`, otherwise the filename. -/
theorem check_unique_name_str (fields : List (String × Json)) (s : String)
    (hlook : jlookup fields "unique_name" = some (Json.str s)) :
    check_unique_name (Json.obj fields) =
      (if s = "" then Except.error (PipeErr.valueError "Unique name is empty")
       else Except.ok (unique_name_filename s)) := by
  by_cases hs : s = ""
  · subst hs
    simp [check_unique_name, hlook, truthy]
  · have hbe : (s == "") = false := beq_false_of_ne hs
    simp [check_unique_name, hlook, truthy, hbe, hs]

/-- C8. For records whose `unique_name` value, when present, is a string
(the declared input format): the check raises exactly when the key is
missing or the string is empty; otherwise it returns
`lowercase(unique_name)` with spaces replaced by hyphens plus `".json"`;
and a failing record aborts the whole collection update rather than
being skipped. -/
theorem check_unique_name_spec (fields : List (String × Json))
    (hstr : ∀ v, jlookup fields "unique_name" = some v → ∃ s, v = Json.str s) :
    ((∃ e, check_unique_name (Json.obj fields) = Except.error e) ↔
      (jlookup fields "unique_name" = none ∨
        jlookup fields "unique_name" = some (Json.str "")))
    ∧ (∀ s, jlookup fields "unique_name" = some (Json.str s) → s ≠ "" →
        check_unique_name (Json.obj fields) = Except.ok (unique_name_filename s))
    ∧ (∀ rec e rest path fs, check_unique_name rec = Except.error e →
        update_licenses (rec :: rest) path fs = Except.error e) := by
  refine ⟨?_, ?_, ?_⟩
  · cases hlook : jlookup fields "unique_name" with
    | none =>
      constructor
      · intro _
        exact Or.inl rfl
      · intro _
        exact ⟨PipeErr.valueError "unique name does not exist", by simp [check_unique_name, hlook]⟩
    | some v =>
      obtain ⟨s, rfl⟩ := hstr v hlook
      have hval := check_unique_name_str fields s hlook
      by_cases hs : s = ""
      · subst hs
        constructor
        · intro _
          exact Or.inr rfl
        · intro _
          exact ⟨PipeErr.valueError "Unique name is empty", by simpa using hval⟩
      · constructor
        · rintro ⟨e, he⟩
          rw [hval, if_neg hs] at he
          cases he
        · rintro (h | h)
          · exact absurd h (by simp)
          · injection h with h1
            injection h1 with h2
            exact absurd h2 hs
  · intro s h hs
    rw [check_unique_name_str fields s h, if_neg hs]
  · intro rec e rest path fs hrec
    show update_loop license_serialize (rec :: rest) path fs = Except.error e
    simp [update_loop, hrec]

theorem check_unique_name_spec_witness :
    check_unique_name (Json.obj [("unique_name", Json.str "My Tool Name")]) =
      Except.ok (unique_name_filename "My Tool Name")
    ∧ unique_name_filename "My Tool Name" = "my-tool-name.json" := by
  constructor
  · exact (check_unique_name_spec [("unique_name", Json.str "My Tool Name")]
      (fun v hv => ⟨"My Tool Name", by simpa [jlookup] using hv.symm⟩)).2.1
      "My Tool Name" rfl (by decide)
  · decide

/-! ### Claim lemmas for identifier extraction -/

theorem grabGroup_closes (inner post : List Char) (h1 : ')' ∉ inner) (h2 : '\n' ∉ inner) :
    grabGroup (inner ++ ')' :: post) = some inner := by
  induction inner with
  | nil => rfl
  | cons c cs ih =>
    rw [List.mem_cons, not_or] at h1 h2
    have hc1 : ¬(c = ')') := fun h => h1.1 h.symm
    have hc2 : ¬(c = '\n') := fun h => h2.1 h.symm
    simp [grabGroup, hc1, hc2, ih h1.2 h2.2]

theorem firstParenGroup_append_not_paren (pre rest : List Char) (hpre : '(' ∉ pre) :
    firstParenGroup (pre ++ rest) = firstParenGroup rest := by
  induction pre with
  | nil => rfl
  | cons c cs ih =>
    rw [List.mem_cons, not_or] at hpre
    have hc : ¬(c = '(') := fun h => hpre.1 h.symm
    simp [firstParenGroup, hc, ih hpre.2]

theorem firstParenGroup_none (l : List Char) (h : '(' ∉ l) : firstParenGroup l = none := by
  induction l with
  | nil => rfl
  | cons c cs ih =>
    rw [List.mem_cons, not_or] at h
    have hc : ¬(c = '(') := fun hh => h.1 hh.symm
    simp [firstParenGroup, hc, ih h.2]

/-- C9. `get_unique_id_from_string` returns the first parenthesized
group's inner content when one is present (compositional form: any text
`pre ++ "(" ++ inner ++ ")" ++ post` with no `(` in `pre` and no `)` or
newline inside `inner`), returns the text unchanged when no parenthesis
occurs, and in particular maps `"MIT License (mit)"` to `"mit"` and
leaves `"Apache-2.0"` unchanged. -/
theorem get_unique_id_spec (pre inner post : List Char)
    (hpre : '(' ∉ pre) (h1 : ')' ∉ inner) (h2 : '\n' ∉ inner) :
    get_unique_id_from_string (String.mk (pre ++ '(' :: (inner ++ ')' :: post))) =
      String.mk inner
    ∧ (∀ text : String, '(' ∉ text.data → get_unique_id_from_string text = text)
    ∧ get_unique_id_from_string "MIT License (mit)" = "mit"
    ∧ get_unique_id_from_string "Apache-2.0" = "Apache-2.0" := by
  refine ⟨?_, ?_, by decide, by decide⟩
  · show (match firstParenGroup (String.mk (pre ++ '(' :: (inner ++ ')' :: post))).data with
      | none => String.mk (pre ++ '(' :: (inner ++ ')' :: post))
      | some g => String.mk g) = String.mk inner
    have hdata : (String.mk (pre ++ '(' :: (inner ++ ')' :: post))).data =
        pre ++ '(' :: (inner ++ ')' :: post) := rfl
    rw [hdata, firstParenGroup_append_not_paren pre _ hpre]
    simp [firstParenGroup, grabGroup_closes inner post h1 h2]
  · intro text htext
    show (match firstParenGroup text.data with
      | none => text
      | some g => String.mk g) = text
    rw [firstParenGroup_none text.data htext]

theorem get_unique_id_spec_witness :
    get_unique_id_from_string "Apache-2.0" = "Apache-2.0" :=
  (get_unique_id_spec "MIT License ".data "mit".data []
    (by decide) (by decide) (by decide)).2.1 "Apache-2.0" (by decide)

/-- C10. The materializer constructs the persisted license from the raw
record's `name` field only: whenever construction succeeds, the entity's
`spdx_id` is the absent marker, whatever the payload carried. -/
theorem license_spdx_id_ignored (lic : Json) (e : Licenses)
    (h : license_entity_of lic = Except.ok e) : e.spdx_id = none := by
  unfold license_entity_of at h
  split at h
  · split at h
    · exact absurd h (by simp)
    · split at h
      · exact absurd h (by simp)
      · cases h
        rfl
  · exact absurd h (by simp)

theorem license_spdx_id_ignored_witness :
    ∃ e, license_entity_of
        (Json.obj [("name", Json.str "MIT"), ("spdx_id", Json.str "Apache-2.0")]) =
      Except.ok e ∧ e.spdx_id = none :=
  ⟨{ name := "MIT", spdx_id := none }, rfl,
    license_spdx_id_ignored
      (Json.obj [("name", Json.str "MIT"), ("spdx_id", Json.str "Apache-2.0")]) _ rfl⟩

/-- C7. Materialization is idempotent: if a run of
`process_issue_json_file` succeeds, a second run on the same payload and
data root over the resulting filesystem creates no new files and leaves
every file's contents exactly as after the first run; moreover the first
run never rewrites a pre-existing file. -/
theorem process_issue_json_file_idempotent (payload : List (String × Json))
    (data_path : String) (fs fs2 : FS) (files : List String)
    (h : process_issue_json_file payload data_path fs = Except.ok (files, fs2)) :
    process_issue_json_file payload data_path fs2 = Except.ok ([], fs2)
    ∧ ∀ p c, List.lookup p fs = some c → List.lookup p fs2 = some c := by
  unfold process_issue_json_file at h
  split at h
  · exact absurd h (by simp)
  · rename_i f1 fs1 h1
    split at h
    · exact absurd h (by simp)
    · rename_i f2 fsB h2
      split at h
      · exact absurd h (by simp)
      · rename_i f3 fsC h3
        split at h
        · exact absurd h (by simp)
        · rename_i f4 fsD h4
          have hpair : f1 ++ f2 ++ f3 ++ f4 = files ∧ fsD = fs2 := by
            injection h with h'
            exact ⟨congrArg Prod.fst h', congrArg Prod.snd h'⟩
          have hle1 : fsLe fs fs1 := run_collection_le update_licenses _ _ _ _ _ _
            (fun recs p f ps2 f2 hh => update_loop_le license_serialize recs p f ps2 f2 hh) h1
          have hle2 : fsLe fs1 fsB := run_collection_le update_organizations _ _ _ _ _ _
            (fun recs p f ps2 f2 hh => update_loop_le organization_serialize recs p f ps2 f2 hh) h2
          have hle3 : fsLe fsB fsC := run_collection_le update_languages _ _ _ _ _ _
            (fun recs p f ps2 f2 hh => update_loop_le language_serialize recs p f ps2 f2 hh) h3
          have hle4 : fsLe fsC fsD := run_collection_le update_software _ _ _ _ _ _
            (fun recs p f ps2 f2 hh => update_loop_le software_serialize recs p f ps2 f2 hh) h4
          have r1 := run_collection_rerun update_licenses _ _ _ _ _ _ fsD
            (fun recs p f ps2 f2 hh hle => update_loop_rerun license_serialize recs p f ps2 f2 fsD hh hle)
            h1 (fsLe_trans hle2 (fsLe_trans hle3 hle4))
          have r2 := run_collection_rerun update_organizations _ _ _ _ _ _ fsD
            (fun recs p f ps2 f2 hh hle => update_loop_rerun organization_serialize recs p f ps2 f2 fsD hh hle)
            h2 (fsLe_trans hle3 hle4)
          have r3 := run_collection_rerun update_languages _ _ _ _ _ _ fsD
            (fun recs p f ps2 f2 hh hle => update_loop_rerun language_serialize recs p f ps2 f2 fsD hh hle)
            h3 hle4
          have r4 := run_collection_rerun update_software _ _ _ _ _ _ fsD
            (fun recs p f ps2 f2 hh hle => update_loop_rerun software_serialize recs p f ps2 f2 fsD hh hle)
            h4 (fsLe_refl fsD)
          rw [← hpair.2]
          constructor
          · simp [process_issue_json_file, r1, r2, r3, r4]
          · exact fsLe_trans hle1 (fsLe_trans hle2 (fsLe_trans hle3 hle4))

theorem process_issue_json_file_idempotent_witness :
    process_issue_json_file
      [("licenses", Json.arr [Json.obj [("unique_name", Json.str "MIT License"),
          ("name", Json.str "MIT")]]),
       ("organizations", Json.arr [Json.obj [("unique_name", Json.str "Acme"),
          ("name", Json.str "Acme"), ("description", Json.null),
          ("url", Json.str "https://acme.example")]])]
      "data"
      [("data/organizations/acme.json",
          organization_render { name := "Acme", description := none, url := some "https://acme.example" }),
       ("data/licenses/mit-license.json", license_render { name := "MIT", spdx_id := none })] =
    Except.ok ([],
      [("data/organizations/acme.json",
          organization_render { name := "Acme", description := none, url := some "https://acme.example" }),
       ("data/licenses/mit-license.json", license_render { name := "MIT", spdx_id := none })]) :=
  (process_issue_json_file_idempotent
    [("licenses", Json.arr [Json.obj [("unique_name", Json.str "MIT License"),
        ("name", Json.str "MIT")]]),
     ("organizations", Json.arr [Json.obj [("unique_name", Json.str "Acme"),
        ("name", Json.str "Acme"), ("description", Json.null),
        ("url", Json.str "https://acme.example")]])]
    "data" []
    [("data/organizations/acme.json",
        organization_render { name := "Acme", description := none, url := some "https://acme.example" }),
     ("data/licenses/mit-license.json", license_render { name := "MIT", spdx_id := none })]
    ["data/licenses/mit-license.json", "data/organizations/acme.json"]
    (by rfl)).1
